import Mathlib

/-!
Shallow embedding of the submission evaluation pipeline in
`codalab/apps/web/tasks.py`: the submission status state machine
(`_set_submission_status`), the two dispatch phases (`predict`, `score`),
the dispatch envelope preparation (`_prepare_compute_worker_run`) and the
result reconciler (`update_submission` with its inner `_update_submission`,
`update_it` and `handle_update_exception`).

Python strings that are parsed character by character (the `scores.txt`
content, score labels and values) are modelled as `List Char`; strings that
are only compared for equality or emptiness (secrets, file names, status
strings) are modelled as `String`.  Machine floats produced by Python's
`float(value)` are modelled as rationals via a parser for the decimal-literal
fragment of `float` (exponent forms, `inf` and `nan` are outside the fragment
exercised here); comparisons of finite IEEE values agree with the rational
order on such literals.
-/

namespace Codalab

/-- The status codenames of `CompetitionSubmissionStatus` used by
`tasks.py`: SUBMITTED, RUNNING, FINISHED, FAILED, CANCELLED. -/
inductive SubStatus
  | submitted
  | running
  | finished
  | failed
  | cancelled
  deriving DecidableEq, Repr, Fintype

/-- `_FINAL_STATES` (tasks.py lines 116-120): the terminal submission states. -/
def finalStates : List SubStatus :=
  [SubStatus.finished, SubStatus.failed, SubStatus.cancelled]

/-- Membership in `_FINAL_STATES`. -/
def isFinal (s : SubStatus) : Bool :=
  finalStates.contains s

/-- `_set_submission_status` (tasks.py lines 122-140): the status write is
performed only when the current status is not final; a final current status
makes the call a logged no-op.  The row-level lock and transaction are
serialization devices; the resulting state change is this pure function of
the current and requested status. -/
def setSubmissionStatus (current target : SubStatus) : SubStatus :=
  if isFinal current then current else target

/-- Job statuses (`Job.RUNNING` / `Job.FINISHED` / `Job.FAILED`) used as
task results by `_update_submission`. -/
inductive JobStatus
  | running
  | finished
  | failed
  deriving DecidableEq, Repr

/-- Python strings handled character-wise are embedded as character lists. -/
abbrev PyStr := List Char

/-- Python dict membership test (`'score' in state`). -/
def hasKey (d : List (String × Nat)) (k : String) : Bool :=
  (d.lookup k).isSome

/-- Python dict assignment `state[k] = v`: overwrite the binding when the key
is present, otherwise append a new binding. -/
def dictInsert (d : List (String × Nat)) (k : String) (v : Nat) : List (String × Nat) :=
  if (d.lookup k).isSome then
    d.map (fun p => if p.1 = k then (k, v) else p)
  else
    d ++ [(k, v)]

/-- The whitespace characters removed by Python's `str.strip()`. -/
def isPySpace (c : Char) : Bool :=
  c = ' ' || c = '\t' || c = '\n' || c = '\r' || c = '\x0b' || c = '\x0c'

/-- Python `s.strip()`: drop whitespace from both ends. -/
def pyStrip (cs : PyStr) : PyStr :=
  ((cs.dropWhile isPySpace).reverse.dropWhile isPySpace).reverse

/-- Python `s.split(sep)` for a one-character separator: always returns at
least one part; `"".split(c) = [""]`. -/
def splitOnChar (c : Char) : PyStr → List PyStr
  | [] => [[]]
  | x :: xs =>
    match splitOnChar c xs with
    | [] => [[]]
    | h :: t => if x = c then [] :: h :: t else (x :: h) :: t

/-- Numeric value of a digit string (all characters assumed decimal digits). -/
def digitsVal (cs : PyStr) : Nat :=
  cs.foldl (fun n c => 10 * n + (c.toNat - 48)) 0

/-- Python `float(value)` on the decimal-literal fragment: optional
surrounding whitespace, optional sign, integer digits, optional fractional
part; at least one digit overall.  Returns `none` exactly when `float`
raises `ValueError` on such inputs. -/
def parseFloat (cs : PyStr) : Option ℚ :=
  let t := pyStrip cs
  let sb : Int × PyStr :=
    match t with
    | '-' :: rest => (-1, rest)
    | '+' :: rest => (1, rest)
    | _ => (1, t)
  let ip := sb.2.takeWhile Char.isDigit
  let rest := sb.2.dropWhile Char.isDigit
  match rest with
  | [] => if ip.isEmpty then none else some (mkRat (sb.1 * (digitsVal ip : Int)) 1)
  | '.' :: fp =>
    if fp.all Char.isDigit && (!ip.isEmpty || !fp.isEmpty) then
      some (mkRat (sb.1 * ((digitsVal ip * 10 ^ fp.length + digitsVal fp : Nat) : Int))
             (10 ^ fp.length))
    else
      none
  | _ => none

/-- `SubmissionScoreDef.sorting`: the sort order of a scoring definition
('asc' = lower is better, 'desc' = higher is better). -/
inductive Sorting
  | asc
  | desc
  deriving DecidableEq, Repr

/-- The fields of a `CompetitionSubmission` (with its phase and competition
configuration flattened in) read or written by the pipeline under study.
`fileName` is `submission.s3_file` / `submission.file.name` (the
participant's uploaded bundle; the two branches of the `settings.USE_AWS`
test are one field here).  `executionKey` is the JSON-decoded
`execution_key` (the empty string decodes to the empty dict, tasks.py lines
309-311 and 512-515).  `scores` are the `SubmissionScore` rows of this
submission as (scoredef key, value) pairs; `scoreDefKeys` are the keys of
the competition's `SubmissionScoreDef` rows.  `defaultSorting`,
`defaultScoreValue` and `phaseScoresForDefault` model the ORM reads
`get_default_score_def().sorting`, `get_default_score()` and
`SubmissionScore.objects.filter(result__phase=submission.phase,
scoredef=score_def)` (apps/web/models is outside src; the spec describes
them as the designated default score definition, the submission's value for
it and all recorded scores for it across the phase). -/
structure Submission where
  pk : Nat
  status : SubStatus
  secret : String
  executionKey : List (String × Nat)
  fileName : String
  predictionOutputName : String
  scoringProgramName : String
  executionTimeLimit : Option Int
  phaseIsBlind : Bool
  phaseForceBest : Bool
  compForceSubmission : Bool
  emailOnFinish : Bool
  exceptionDetails : Option String
  scoreDefKeys : List PyStr
  scores : List (PyStr × ℚ)
  defaultSorting : Sorting
  defaultScoreValue : ℚ
  phaseScoresForDefault : List ℚ
  deriving DecidableEq, Repr

/-- Externally observable actions of the pipeline.  `dispatched` is the
publish of a task envelope to the compute queue
(`compute_worker_run.apply_async`); `promoted` is a call to
`add_submission_to_leaderboard`; `emailSent` is a successful `send_mail`. -/
inductive Event
  | dispatched (jobId : Nat) (isPrediction : Bool)
  | promoted
  | emailSent
  deriving DecidableEq, Repr

/-- The task envelope built by `_prepare_compute_worker_run` (tasks.py lines
209-225), restricted to the fields the claims inspect.
`executionTimeLimitArg` is the raw `task_args['execution_time_limit']`. -/
structure TaskEnvelope where
  id : Nat
  submissionId : Nat
  secret : String
  executionTimeLimitArg : Option Int
  predict : Bool
  deriving DecidableEq, Repr

/-- Python 2 comparison `x <= 0` where `x` may be `None`
(`None` compares below every number in Python 2). -/
def pyLeZero : Option Int → Bool
  | none => true
  | some v => decide (v ≤ 0)

/-- `_prepare_compute_worker_run` (tasks.py lines 194-239): builds the task
envelope and computes the soft time limit passed to `apply_async`
(`default_time_limit`, lines 229-231: the phase's `execution_time_limit`,
replaced by `60 * 10` when it is not positive).  Returns the envelope and
the soft time limit. -/
def prepareComputeWorkerRun (jobId : Nat) (sub : Submission) (isPrediction : Bool) :
    TaskEnvelope × Int :=
  let data : TaskEnvelope :=
    { id := jobId
      submissionId := sub.pk
      secret := sub.secret
      executionTimeLimitArg := sub.executionTimeLimit
      predict := isPrediction }
  let softLimit : Int :=
    if pyLeZero sub.executionTimeLimit then 60 * 10 else sub.executionTimeLimit.getD 0
  (data, softLimit)

/-- `predict` (tasks.py lines 143-191).  The stdout/stderr/output placeholder
saves and the signed-URL manifest lines touch only storage, not the modelled
fields.  Errors carry the submission state and the events emitted up to the
raise; the program check (lines 157-160) precedes every other action, so its
error carries the unchanged submission and no dispatch event.  On success the
execution key is wholesale-replaced by `{'predict': job_id}` (line 184), the
run is dispatched, and the status is re-affirmed SUBMITTED through
`_set_submission_status`. -/
def predict (sub : Submission) (jobId : Nat) :
    Except (String × Submission × List Event) (Submission × List Event) :=
  if sub.fileName.length > 0 then
    let sub1 := { sub with executionKey := [("predict", jobId)] }
    let evs := [Event.dispatched jobId true]
    let sub2 := { sub1 with status := setSubmissionStatus sub1.status SubStatus.submitted }
    Except.ok (sub2, evs)
  else
    Except.error ("Program is missing.", sub, [])

/-- `score` (tasks.py lines 298-482).  The history/scores/coopetition file
builds touch only storage.  The input-manifest `res` check (lines 416-423)
and the run-manifest program check (lines 447-451) precede the execution-key
update (line 467), the saves and the dispatch (line 476); `dispatchOk`
models whether the queue publish succeeds (a failed publish raises after the
execution-key update has been persisted by `submission.save()`, line 474).
The SUBMITTED re-affirmation (lines 478-479) happens only when no prediction
step preceded. -/
def score (sub : Submission) (jobId : Nat) (dispatchOk : Bool) :
    Except (String × Submission × List Event) (Submission × List Event) :=
  let state := sub.executionKey
  let hasGeneratedPredictions := hasKey state "predict"
  let resValue := if hasGeneratedPredictions then sub.predictionOutputName else sub.fileName
  if resValue.length > 0 then
    if sub.scoringProgramName.length > 0 then
      let sub1 := { sub with executionKey := dictInsert state "score" jobId }
      if dispatchOk then
        let evs := [Event.dispatched jobId false]
        let sub2 :=
          if hasGeneratedPredictions then sub1
          else { sub1 with status := setSubmissionStatus sub1.status SubStatus.submitted }
        Except.ok (sub2, evs)
      else
        Except.error ("queue publish failed", sub1, [])
    else
      Except.error ("Program is missing.", sub, [])
  else
    Except.error ("Results are missing.", sub, [])

/-- The leaderboard-promotion decision of the
`force_best_submission_to_leaderboard` branch as the code performs it
(tasks.py lines 572-590): ascending — `top_score.order_by('value').first()`
is the minimum of the recorded values and the submission is added iff
`score_value >= top_score.value`; descending — `.last()` is the maximum and
the submission is added iff `score_value <= top_score.value`.  `none` models
the `AttributeError` on `top_score.value` when the query is empty
(`first()`/`last()` return `None`). -/
def forceBestPromotes (sorting : Sorting) (phaseScores : List ℚ) (scoreValue : ℚ) :
    Option Bool :=
  match sorting with
  | Sorting.asc => (phaseScores.min?).map (fun topValue => decide (topValue ≤ scoreValue))
  | Sorting.desc => (phaseScores.max?).map (fun topValue => decide (scoreValue ≤ topValue))

/-- Modelled from the spec: the promotion decision as §4.5 clause 3 of the
spec states it — ascending (lower is better): promote iff the value is ≤ the
minimum of the recorded scores; descending (higher is better): promote iff
the value is ≥ the maximum.  Stated separately from `forceBestPromotes`
(which embeds the code) so the two can be compared. -/
def forceBestPromotesSpec (sorting : Sorting) (phaseScores : List ℚ) (scoreValue : ℚ) :
    Option Bool :=
  match sorting with
  | Sorting.asc => (phaseScores.min?).map (fun topValue => decide (scoreValue ≤ topValue))
  | Sorting.desc => (phaseScores.max?).map (fun topValue => decide (topValue ≤ scoreValue))

/-- The outcome of one non-empty `scores.txt` line in the loop of
`_update_submission` (tasks.py lines 549-559): a `SubmissionScore` row was
created, or the label matched no `SubmissionScoreDef` and the line was
skipped with a warning. -/
inductive LineOutcome
  | row (key : PyStr) (value : ℚ)
  | warnSkip (label : PyStr)
  deriving DecidableEq, Repr

/-- The loop body for one non-empty line (tasks.py lines 551-558):
`label, value = line.split(":")` raises `ValueError` unless the split has
exactly two parts; then `SubmissionScoreDef.objects.get(..., key=label.strip())`
either finds a definition or raises `DoesNotExist` (the only exception the
`except` clause catches — a warning-level skip); with a definition found,
`float(value)` raises an uncaught `ValueError` on a non-float value, and
otherwise a `SubmissionScore` row is created.  Errors are exceptions that
propagate out of the loop. -/
def processLine (defs : List PyStr) (line : PyStr) : Except String LineOutcome :=
  match splitOnChar ':' line with
  | [label, value] =>
    if defs.contains (pyStrip label) then
      match parseFloat value with
      | some v => Except.ok (LineOutcome.row (pyStrip label) v)
      | none => Except.error "ValueError: could not convert string to float"
    else
      Except.ok (LineOutcome.warnSkip label)
  | _ => Except.error "ValueError: unpack"

/-- The scores loop over `scores.split(\x22\n\x22)` (tasks.py lines 549-559):
empty lines are skipped; outcomes accumulate in order; an exception stops
the loop, keeping the outcomes (and created rows) of the earlier lines. -/
def processScoresAux (defs : List PyStr) : List PyStr → List LineOutcome × Option String
  | [] => ([], none)
  | line :: rest =>
    if 0 < line.length then
      match processLine defs line with
      | Except.ok out =>
        let r := processScoresAux defs rest
        (out :: r.1, r.2)
      | Except.error m => ([], some m)
    else
      processScoresAux defs rest

/-- Process a whole `scores.txt` content: split on newlines and run the loop. -/
def processScores (defs : List PyStr) (content : PyStr) : List LineOutcome × Option String :=
  processScoresAux defs (splitOnChar '\n' content)

/-- The `SubmissionScore` rows created by a list of line outcomes. -/
def rowsOf : List LineOutcome → List (PyStr × ℚ)
  | [] => []
  | LineOutcome.row k v :: rest => (k, v) :: rowsOf rest
  | LineOutcome.warnSkip _ :: rest => rowsOf rest

/-- The number of warning-level skips in a list of line outcomes. -/
def warnCount : List LineOutcome → Nat
  | [] => 0
  | LineOutcome.row _ _ :: rest => warnCount rest
  | LineOutcome.warnSkip _ :: rest => 1 + warnCount rest

/-- The leaderboard block of the finished-score branch (tasks.py lines
562-590), run after the FINISHED transition.  `promotionOk` models whether
the external `add_submission_to_leaderboard` calls and the block's ORM reads
complete without raising; with the block healthy, the three clauses fire as
in the code: blind phase without force-best, competition-wide force without
force-best, and the force-best decision (`forceBestPromotes`), whose empty
query raises (`none`).  The block never writes the submission status. -/
def promotionBlock (sub : Submission) (promotionOk : Bool) : Except String (List Event) :=
  if promotionOk then
    let e1 : List Event :=
      if sub.phaseIsBlind && !sub.phaseForceBest then [Event.promoted] else []
    let e2 : List Event :=
      if sub.compForceSubmission && !sub.phaseForceBest then [Event.promoted] else []
    if sub.phaseForceBest then
      match forceBestPromotes sub.defaultSorting sub.phaseScoresForDefault sub.defaultScoreValue with
      | none => Except.error "AttributeError: NoneType object has no attribute value"
      | some b => Except.ok (e1 ++ e2 ++ (if b then [Event.promoted] else []))
    else
      Except.ok (e1 ++ e2)
  else
    Except.error "promotion raised"

/-- The callback arguments of `update_submission`: `args['status']` and the
optional `args['extra']['traceback']` / `args['extra']['metadata']`. -/
structure CallbackArgs where
  status : String
  traceback : Option String
  metadata : Bool
  deriving DecidableEq, Repr

/-- External nondeterminism of one `_update_submission` run: the content of
`scores.txt` inside the worker's output archive (`none` = the extraction on
tasks.py line 542 raises), whether the `score` dispatch publish succeeds,
whether the leaderboard block completes without raising, and whether
`send_mail` (called with `fail_silently=False`) completes without raising. -/
structure Oracles where
  scoresTxt : Option PyStr
  scoreDispatchOk : Bool
  promotionOk : Bool
  emailOk : Bool
  deriving DecidableEq, Repr

/-- The fields of the `Job` record `update_it` reads. -/
structure JobRec where
  id : Nat
  taskType : String
  deriving DecidableEq, Repr

/-- `_update_submission` (tasks.py lines 503-627).  Errors are exceptions
propagating out of the function, carrying the submission state already
persisted when they were raised (each `.save()` and each
`_set_submission_status` commits as it happens).  The metadata upsert
(lines 518-527) touches only `CompetitionSubmissionMetadata`, never the
modelled fields, and is omitted.  Branches:
`'running'` → RUNNING transition (lines 529-531);
`'finished'` with `'score'` in the execution key → extract `scores.txt`
(missing file: FAILED transition and `Job.FAILED`, lines 541-546), run the
scores loop (lines 549-559; an exception keeps the rows created so far and
propagates), FINISHED transition (line 560), leaderboard block, `Job.FINISHED`,
completion email (lines 594-604);
`'finished'` without `'score'` → call `score`; an exception is logged and
swallowed and the result stays `Job.FAILED` (lines 605-618);
anything else → log when not `'failed'`, persist a supplied traceback, and
take the FAILED transition (lines 620-627; the branch returns `None`). -/
def updateSubmissionInner (sub : Submission) (args : CallbackArgs) (jobId : Nat) (o : Oracles) :
    Except (String × Submission) (Submission × Option JobStatus) :=
  let state := sub.executionKey
  if args.status = "running" then
    Except.ok ({ sub with status := setSubmissionStatus sub.status SubStatus.running },
               some JobStatus.running)
  else if args.status = "finished" then
    if hasKey state "score" then
      match o.scoresTxt with
      | none =>
        Except.ok ({ sub with status := setSubmissionStatus sub.status SubStatus.failed },
                   some JobStatus.failed)
      | some content =>
        let pr := processScores sub.scoreDefKeys content
        let sub1 := { sub with scores := sub.scores ++ rowsOf pr.1 }
        match pr.2 with
        | some m => Except.error (m, sub1)
        | none =>
          let sub2 := { sub1 with status := setSubmissionStatus sub1.status SubStatus.finished }
          match promotionBlock sub2 o.promotionOk with
          | Except.error m => Except.error (m, sub2)
          | Except.ok _ =>
            if sub2.emailOnFinish && !o.emailOk then
              Except.error ("send_mail raised", sub2)
            else
              Except.ok (sub2, some JobStatus.finished)
    else
      match score sub jobId o.scoreDispatchOk with
      | Except.ok (s, _) => Except.ok (s, some JobStatus.running)
      | Except.error (_, s, _) => Except.ok (s, some JobStatus.failed)
  else
    let sub1 :=
      match args.traceback with
      | some t => { sub with exceptionDetails := some t }
      | none => sub
    Except.ok ({ sub1 with status := setSubmissionStatus sub1.status SubStatus.failed }, none)

/-- Whether an exception reaching `handle_update_exception` carries a
`submission` attribute.  Only a fully constructed `SubmissionUpdateException`
does. -/
inductive ExceptionRef
  | withSubmission
  | plain
  deriving DecidableEq, Repr

/-- `SubmissionUpdateException.__init__` (tasks.py lines 485-490) reads
`inner_exception.message` before anything else.  When the inner value is an
exception instance, Python 2 provides `.message` and the wrapper (with its
`submission` attribute) is constructed.  When the inner value is a plain
`str` — as in the secret-mismatch raise on line 655, whose second argument
is the literal `"Password does not match"` — Python 2 strings have no
`.message` attribute, so the constructor itself raises `AttributeError`:
the exception that propagates carries no `submission` attribute. -/
def mkSubmissionUpdateException (innerIsException : Bool) : ExceptionRef :=
  if innerIsException then ExceptionRef.withSubmission else ExceptionRef.plain

/-- `update_it` (tasks.py lines 644-676): reject a job whose task type is
not `evaluate_submission` (a `ValueError`, which has no `submission`
attribute); reject a callback whose secret differs from the stored secret
(the attempted wrapper construction with a `str` inner value, see
`mkSubmissionUpdateException`); otherwise run `_update_submission`, wrapping
any exception from it together with the submission (the inner value is then
an exception instance). -/
def updateIt (job : JobRec) (sub : Submission) (args : CallbackArgs) (secret : String)
    (o : Oracles) :
    Except (ExceptionRef × Submission) (Submission × Option JobStatus) :=
  if job.taskType ≠ "evaluate_submission" then
    Except.error (ExceptionRef.plain, sub)
  else if secret ≠ sub.secret then
    Except.error (mkSubmissionUpdateException false, sub)
  else
    match updateSubmissionInner sub args job.id o with
    | Except.ok r => Except.ok r
    | Except.error (_, s) => Except.error (mkSubmissionUpdateException true, s)

/-- `handle_update_exception` (tasks.py lines 629-642): read `ex.submission`
and take the FAILED transition on it; when the exception has no such
attribute the read itself raises, the inner `except` logs, and the
submission state is untouched. -/
def handleUpdateException (ex : ExceptionRef) (dbState : Submission) : Submission :=
  match ex with
  | ExceptionRef.withSubmission =>
    { dbState with status := setSubmissionStatus dbState.status SubStatus.failed }
  | ExceptionRef.plain => dbState

/-- Modelled from the spec: `run_job_task(job_id, update_it,
handle_update_exception)` lives in apps/jobs/models, which is not under
src/.  Per §4.6 of the spec ("the outer handler catches it, forces the
submission to FAILED") the job runner invokes the task function and, when it
raises, hands the exception to the handler; the handler's own effect on the
submission is `handleUpdateException`, which is in src.  The pair returned
is the submission state after the whole `update_submission` task and the
job result (`none` when the task body returned no status). -/
def updateSubmissionTask (job : JobRec) (sub : Submission) (args : CallbackArgs)
    (secret : String) (o : Oracles) : Submission × Option JobStatus :=
  match updateIt job sub args secret o with
  | Except.ok (s, r) => (s, r)
  | Except.error (ex, s) => (handleUpdateException ex s, some JobStatus.failed)

/-- A `scores.txt` line is well formed when it splits on `':'` into exactly
a label and a value and the value is a parseable float — the shape the
claims call a well-formed `label: value` pair. -/
def wellFormedLine (line : PyStr) : Bool :=
  match splitOnChar ':' line with
  | [_, v] => (parseFloat v).isSome
  | _ => false

/-- A `scores.txt` content all of whose non-empty lines are well formed. -/
def wellFormedContent (content : PyStr) : Bool :=
  (splitOnChar '\n' content).all (fun l => l.length = 0 || wellFormedLine l)

/-- Correspondence between one non-empty input line and its outcome: the
line splits into a label and a value; a label (stripped) matching a scoring
definition yields exactly one row holding the parsed float value; an
unmatched label yields a warning-level skip and no row. -/
def lineMatches (defs : List PyStr) (line : PyStr) (out : LineOutcome) : Prop :=
  ∃ l v, splitOnChar ':' line = [l, v] ∧
    (if defs.contains (pyStrip l) then
      ∃ q, parseFloat v = some q ∧ out = LineOutcome.row (pyStrip l) q
    else
      out = LineOutcome.warnSkip l)

/-- Non-empty lines of a `scores.txt` content, in order. -/
def nonEmptyLines (content : PyStr) : List PyStr :=
  (splitOnChar '\n' content).filter (fun l => 0 < l.length)

/-- A concrete submission used by the witnesses: score phase already
dispatched, currently RUNNING, one scoring definition `accuracy`. -/
def subEx : Submission :=
  { pk := 11
    status := SubStatus.running
    secret := "s3cr3t"
    executionKey := [("predict", 1), ("score", 2)]
    fileName := "submissions/bundle.zip"
    predictionOutputName := "submissions/prediction_output.zip"
    scoringProgramName := "competition/scoring_program.zip"
    executionTimeLimit := some 300
    phaseIsBlind := false
    phaseForceBest := false
    compForceSubmission := false
    emailOnFinish := false
    exceptionDetails := none
    scoreDefKeys := ["accuracy".toList]
    scores := []
    defaultSorting := Sorting.asc
    defaultScoreValue := 0
    phaseScoresForDefault := [] }

/-- A job record with the expected task type. -/
def jobEx : JobRec := { id := 2, taskType := "evaluate_submission" }

/-- A plain `finished` callback with no extra payload. -/
def argsFinished : CallbackArgs := { status := "finished", traceback := none, metadata := false }

/-- Benign oracles: a well-formed `scores.txt`, healthy queue, leaderboard
and mail. -/
def oBenign : Oracles :=
  { scoresTxt := some ("accuracy: 0.87".toList)
    scoreDispatchOk := true
    promotionOk := true
    emailOk := true }

/-- Submission whose execution key already records both phases (used to
exhibit the wholesale rewrite performed by `predict`). -/
def subC4 : Submission :=
  { subEx with executionKey := [("predict", 1), ("score", 5)], status := SubStatus.submitted }

/-- Submission with an empty execution key, about to enter `predict`. -/
def subC4w : Submission :=
  { subEx with executionKey := [], status := SubStatus.submitted }

/-- The state `predict subC4w 7` produces. -/
def subC4wAfter : Submission :=
  { subC4w with executionKey := [("predict", 7)] }

/-- Oracles delivering a `scores.txt` with a matched label and a value that
`float` rejects. -/
def oC5 : Oracles :=
  { oBenign with scoresTxt := some ("accuracy: oops".toList) }

/-- Oracles with a missing `scores.txt`. -/
def oC5m : Oracles :=
  { oBenign with scoresTxt := none }

/-- The spec's scores-parsing test content: `accuracy: 0.87\nf1: 0.5`. -/
def contentC6 : PyStr :=
  "accuracy: 0.87\nf1: 0.5".toList

/-- Oracles delivering the spec's test content. -/
def oC6 : Oracles :=
  { oBenign with scoresTxt := some contentC6 }

/-- Submission with no uploaded bundle (empty program reference for
`predict`). -/
def subC7a : Submission :=
  { subEx with fileName := "" }

/-- Submission entering a direct scoring run (no `predict` key) with no
uploaded result (empty `res` reference). -/
def subC7b : Submission :=
  { subEx with executionKey := [], fileName := "" }

/-- Submission whose competition has no scoring program reference. -/
def subC7c : Submission :=
  { subEx with executionKey := [("predict", 1)], scoringProgramName := "" }

/-- Submission whose phase has `execution_time_limit = 0`. -/
def subC8z : Submission :=
  { subEx with executionTimeLimit := some 0 }

/-- Submission whose phase has no `execution_time_limit`. -/
def subC8n : Submission :=
  { subEx with executionTimeLimit := none }

/-- Submission after the predict phase only (no `score` key yet). -/
def subC9 : Submission :=
  { subEx with executionKey := [("predict", 1)] }

/-- Oracles whose queue publish fails, making the `score` dispatch raise. -/
def oC9 : Oracles :=
  { oBenign with scoreDispatchOk := false }

/-- Oracles whose leaderboard block raises after the FINISHED transition. -/
def oC10 : Oracles :=
  { oBenign with promotionOk := false }

/-- The submission state produced by the finished-score branch when the
scores loop completes: rows appended, FINISHED transition taken. -/
def finishedState (sub : Submission) (content : PyStr) : Submission :=
  { sub with
    scores := sub.scores ++ rowsOf (processScores sub.scoreDefKeys content).1
    status := setSubmissionStatus sub.status SubStatus.finished }

/-! Helper lemmas. -/

/-- Inserting an absent key appends one binding. -/
theorem dictInsert_lookup_none (d : List (String × Nat)) (k : String) (v : Nat)
    (h : d.lookup k = none) : dictInsert d k v = d ++ [(k, v)] := by
  unfold dictInsert
  rw [h]
  simp

/-- Every error exit of `score` leaves the submission status untouched:
the two precondition checks fire before any modelled mutation and a failed
dispatch fires after only the execution-key update. -/
theorem score_error_preserves_status (sub : Submission) (j : Nat) (ok : Bool)
    (m : String) (s : Submission) (evs : List Event)
    (h : score sub j ok = Except.error (m, s, evs)) : s.status = sub.status := by
  simp only [score] at h
  repeat' split at h
  all_goals
    first
      | exact Except.noConfusion h
      | (simp only [Except.error.injEq, Prod.mk.injEq] at h
         obtain ⟨-, hs, -⟩ := h
         rw [← hs])

/-- A well-formed line is processed without an exception, and its outcome is
a row (matched, stripped label, parsed value) or a warning skip (unmatched
label). -/
theorem processLine_wellFormed (defs : List PyStr) (line : PyStr)
    (h : wellFormedLine line = true) :
    ∃ out, processLine defs line = Except.ok out ∧ lineMatches defs line out := by
  unfold wellFormedLine at h
  rcases hsp : splitOnChar ':' line with _ | ⟨l, t⟩
  · rw [hsp] at h
    exact Bool.noConfusion h
  · rcases t with _ | ⟨v, t2⟩
    · rw [hsp] at h
      exact Bool.noConfusion h
    · rcases t2 with _ | ⟨a, t3⟩
      · rw [hsp] at h
        by_cases hd : defs.contains (pyStrip l) = true
        · obtain ⟨q, hq⟩ := Option.isSome_iff_exists.mp h
          refine ⟨LineOutcome.row (pyStrip l) q, ?_, ?_⟩
          · unfold processLine
            rw [hsp]
            show (if defs.contains (pyStrip l) = true then _ else _) = _
            rw [if_pos hd, hq]
          · refine ⟨l, v, hsp, ?_⟩
            rw [if_pos hd]
            exact ⟨q, hq, rfl⟩
        · refine ⟨LineOutcome.warnSkip l, ?_, ?_⟩
          · unfold processLine
            rw [hsp]
            show (if defs.contains (pyStrip l) = true then _ else _) = _
            rw [if_neg hd]
          · refine ⟨l, v, hsp, ?_⟩
            rw [if_neg hd]
      · rw [hsp] at h
        exact Bool.noConfusion h

/-- The scores loop over a list of lines each of which is empty or well
formed: no exception, and the outcomes correspond one-to-one, in order, to
the non-empty lines. -/
theorem processScoresAux_wellFormed (defs : List PyStr) (L : List PyStr)
    (h : ∀ l ∈ L, l.length = 0 ∨ wellFormedLine l = true) :
    (processScoresAux defs L).2 = none ∧
    List.Forall₂ (lineMatches defs) (L.filter (fun l => 0 < l.length))
      (processScoresAux defs L).1 := by
  induction L with
  | nil => exact ⟨rfl, by simp [processScoresAux]⟩
  | cons line rest ih =>
    have hrest : ∀ l ∈ rest, l.length = 0 ∨ wellFormedLine l = true :=
      fun l hl => h l (List.mem_cons_of_mem _ hl)
    obtain ⟨ih1, ih2⟩ := ih hrest
    rcases h line (List.mem_cons_self _ _) with h0 | hwf
    · have hlen : ¬ (0 < line.length) := by omega
      unfold processScoresAux
      rw [if_neg hlen]
      refine ⟨ih1, ?_⟩
      have hf : (line :: rest).filter (fun l => 0 < l.length) =
          rest.filter (fun l => 0 < l.length) := by
        simp [List.filter_cons, hlen]
      rw [hf]
      exact ih2
    · have hne : line ≠ [] := by
        intro he
        rw [he] at hwf
        exact absurd hwf (by decide)
      have hlen : 0 < line.length := by
        cases line with
        | nil => exact absurd rfl hne
        | cons c cs => simp
      obtain ⟨out, hpl, hlm⟩ := processLine_wellFormed defs line hwf
      unfold processScoresAux
      rw [if_pos hlen, hpl]
      have hf : (line :: rest).filter (fun l => 0 < l.length) =
          line :: rest.filter (fun l => 0 < l.length) := by
        simp [List.filter_cons, hlen]
      rw [hf]
      exact ⟨ih1, List.Forall₂.cons hlm ih2⟩

/-- With the right task type and a matching secret, a normally returning
`_update_submission` determines the task outcome directly. -/
theorem updateTask_ok_of_inner (job : JobRec) (sub : Submission) (args : CallbackArgs)
    (o : Oracles) (s : Submission) (r : Option JobStatus)
    (htt : job.taskType = "evaluate_submission")
    (h : updateSubmissionInner sub args job.id o = Except.ok (s, r)) :
    updateSubmissionTask job sub args sub.secret o = (s, r) := by
  unfold updateSubmissionTask updateIt
  rw [if_neg (by simp [htt]), if_neg (by simp), h]

/-- With the right task type and a matching secret, an exception from
`_update_submission` is wrapped with the submission, and the handler takes
the FAILED transition on the state the exception carried. -/
theorem updateTask_error_of_inner (job : JobRec) (sub : Submission) (args : CallbackArgs)
    (o : Oracles) (m : String) (s : Submission)
    (htt : job.taskType = "evaluate_submission")
    (h : updateSubmissionInner sub args job.id o = Except.error (m, s)) :
    updateSubmissionTask job sub args sub.secret o =
      ({ s with status := setSubmissionStatus s.status SubStatus.failed },
       some JobStatus.failed) := by
  unfold updateSubmissionTask updateIt
  rw [if_neg (by simp [htt]), if_neg (by simp), h]
  rfl

/-- Finished-score branch, missing `scores.txt`: FAILED transition, normal
return. -/
theorem inner_finished_missing (sub : Submission) (args : CallbackArgs) (jobId : Nat)
    (o : Oracles)
    (hst : args.status = "finished")
    (hkey : hasKey sub.executionKey "score" = true)
    (hc : o.scoresTxt = none) :
    updateSubmissionInner sub args jobId o =
      Except.ok ({ sub with status := setSubmissionStatus sub.status SubStatus.failed },
                 some JobStatus.failed) := by
  simp only [updateSubmissionInner]
  rw [hst]
  rw [if_neg (by decide), if_pos rfl, if_pos hkey, hc]

/-- Finished-score branch, scores loop raising: the exception carries the
submission with the rows created before the raise; the status is untouched
at that point. -/
theorem inner_finished_parse_error (sub : Submission) (args : CallbackArgs) (jobId : Nat)
    (o : Oracles) (content : PyStr) (m : String)
    (hst : args.status = "finished")
    (hkey : hasKey sub.executionKey "score" = true)
    (hc : o.scoresTxt = some content)
    (hparse : (processScores sub.scoreDefKeys content).2 = some m) :
    updateSubmissionInner sub args jobId o =
      Except.error (m,
        { sub with scores := sub.scores ++ rowsOf (processScores sub.scoreDefKeys content).1 }) := by
  simp only [updateSubmissionInner]
  rw [hst]
  rw [if_neg (by decide), if_pos rfl, if_pos hkey, hc]
  simp only [hparse]

/-- Finished-score branch, scores loop completing: the task either returns
normally in the `finishedState` or raises out of the promotion/email code
carrying the `finishedState`. -/
theorem inner_finished_score (sub : Submission) (args : CallbackArgs) (jobId : Nat)
    (o : Oracles) (content : PyStr)
    (hst : args.status = "finished")
    (hkey : hasKey sub.executionKey "score" = true)
    (hc : o.scoresTxt = some content)
    (hparse : (processScores sub.scoreDefKeys content).2 = none) :
    updateSubmissionInner sub args jobId o =
      Except.ok (finishedState sub content, some JobStatus.finished) ∨
    ∃ m, updateSubmissionInner sub args jobId o = Except.error (m, finishedState sub content) := by
  have hred : updateSubmissionInner sub args jobId o =
      (match promotionBlock (finishedState sub content) o.promotionOk with
       | Except.error m => Except.error (m, finishedState sub content)
       | Except.ok _ =>
         if (finishedState sub content).emailOnFinish && !o.emailOk then
           Except.error ("send_mail raised", finishedState sub content)
         else
           Except.ok (finishedState sub content, some JobStatus.finished)) := by
    simp only [updateSubmissionInner]
    rw [hst]
    rw [if_neg (by decide), if_pos rfl, if_pos hkey, hc]
    simp only [hparse]
    rfl
  rw [hred]
  cases hpb : promotionBlock (finishedState sub content) o.promotionOk with
  | error m =>
    simp only [hpb]
    right
    exact ⟨m, rfl⟩
  | ok evs =>
    simp only [hpb]
    by_cases he : ((finishedState sub content).emailOnFinish && !o.emailOk) = true
    · rw [if_pos he]
      right
      exact ⟨"send_mail raised", rfl⟩
    · rw [if_neg he]
      left
      rfl

/-- Finished callback with no `score` key and a raising `score` dispatch:
the exception is swallowed, the function returns normally with the state
the dispatch left behind. -/
theorem inner_finished_predict_error (sub : Submission) (args : CallbackArgs) (jobId : Nat)
    (o : Oracles) (m : String) (s : Submission) (evs : List Event)
    (hst : args.status = "finished")
    (hkey : hasKey sub.executionKey "score" = false)
    (hsc : score sub jobId o.scoreDispatchOk = Except.error (m, s, evs)) :
    updateSubmissionInner sub args jobId o = Except.ok (s, some JobStatus.failed) := by
  simp only [updateSubmissionInner]
  rw [hst]
  rw [if_neg (by decide), if_pos rfl, if_neg (by simp [hkey]), hsc]

/-- The submission state after a whole finished-score `update_submission`
task whose scores loop completed: the `finishedState`, possibly with a
FAILED transition attempted on top of it by the exception handler. -/
theorem updateTask_finished_score_state (job : JobRec) (sub : Submission) (args : CallbackArgs)
    (o : Oracles) (content : PyStr)
    (htt : job.taskType = "evaluate_submission")
    (hst : args.status = "finished")
    (hkey : hasKey sub.executionKey "score" = true)
    (hc : o.scoresTxt = some content)
    (hparse : (processScores sub.scoreDefKeys content).2 = none) :
    (updateSubmissionTask job sub args sub.secret o).1 = finishedState sub content ∨
    (updateSubmissionTask job sub args sub.secret o).1 =
      { finishedState sub content with
        status := setSubmissionStatus (finishedState sub content).status SubStatus.failed } := by
  rcases inner_finished_score sub args job.id o content hst hkey hc hparse with hok | ⟨m, herr⟩
  · left
    rw [updateTask_ok_of_inner job sub args o _ _ htt hok]
  · right
    rw [updateTask_error_of_inner job sub args o m _ htt herr]

/-! Claim theorems. -/

/-- Claim C1 (code bug exhibited): with the ascending sort order and
recorded phase scores 3.0 (existing best) and 4.0 (the new submission), the
code promotes the new submission (its value 4.0 is >= the minimum 3.0,
tasks.py line 580), while the spec's decision — promote iff the value is ≤
the minimum — rejects it.  The code's comparisons are inverted relative to
the claim. -/
theorem C1_forceBest_comparison_inverted :
    forceBestPromotes Sorting.asc [3, 4] 4 = some true ∧
    forceBestPromotesSpec Sorting.asc [3, 4] 4 = some false := by decide

/-- Claim C2: a callback whose secret differs from the submission's stored
secret leaves the stored status unchanged, whatever the declared status,
traceback, metadata or oracles are.  The mismatch raise aborts inside the
`SubmissionUpdateException` constructor (the inner value is a `str` without
`.message`), so the exception reaching the handler carries no submission and
the handler's FAILED write never happens. -/
theorem C2_secret_mismatch_preserves_status (job : JobRec) (sub : Submission)
    (args : CallbackArgs) (secret : String) (o : Oracles)
    (h : secret ≠ sub.secret) :
    (updateSubmissionTask job sub args secret o).1.status = sub.status := by
  unfold updateSubmissionTask updateIt
  by_cases htt : job.taskType = "evaluate_submission"
  · rw [if_neg (by simp [htt]), if_pos h]
    rfl
  · rw [if_pos htt]
    rfl

/-- Witness for C2 at a concrete input: secret `"wrong"` against stored
secret `"s3cr3t"`, a `finished` callback with a well-formed `scores.txt`:
the status stays RUNNING. -/
theorem C2_secret_mismatch_preserves_status_witness :
    ("wrong" : String) ≠ subEx.secret ∧
    (updateSubmissionTask jobEx subEx argsFinished "wrong" oC6).1.status = subEx.status :=
  ⟨by decide, C2_secret_mismatch_preserves_status jobEx subEx argsFinished "wrong" oC6 (by decide)⟩

/-- Claim C3: `_set_submission_status` leaves a FINISHED, FAILED or
CANCELLED submission unchanged whatever the requested status is, and
replaces the status of a submission in any non-terminal state with the
requested one. -/
theorem C3_terminal_latch :
    ∀ current target : SubStatus,
      ((current = SubStatus.finished ∨ current = SubStatus.failed ∨
          current = SubStatus.cancelled) →
        setSubmissionStatus current target = current) ∧
      (current ≠ SubStatus.finished → current ≠ SubStatus.failed →
        current ≠ SubStatus.cancelled →
        setSubmissionStatus current target = target) := by decide

/-- Witness for C3: FINISHED absorbs a RUNNING request; RUNNING moves to
FINISHED. -/
theorem C3_terminal_latch_witness :
    setSubmissionStatus SubStatus.finished SubStatus.running = SubStatus.finished ∧
    setSubmissionStatus SubStatus.running SubStatus.finished = SubStatus.finished :=
  ⟨(C3_terminal_latch SubStatus.finished SubStatus.running).1 (Or.inl rfl),
   (C3_terminal_latch SubStatus.running SubStatus.finished).2
     (by decide) (by decide) (by decide)⟩

/-- Claim C4 counterexample: a successful `predict` dispatch on a submission
whose execution key already holds `predict` and `score` rewrites the key to
exactly `{'predict': job_id}` (tasks.py line 184): the `score` key is
removed, the `predict` value is overwritten, and no new key is added —
refuting "adds exactly one new key" and "no operation removes or overwrites
keys already present". -/
theorem C4_predict_overwrites_key :
    ((predict subC4 2).toOption.map (fun r => r.1.executionKey)) = some [("predict", 2)] ∧
    subC4.executionKey.lookup "score" = some 5 ∧
    subC4.executionKey.lookup "predict" = some 1 := by decide

/-- Claim C4 as amended: starting from an empty execution key, a successful
`predict` dispatch produces exactly `{'predict': job_id}`; a successful
`score` dispatch on a key without `score` preserves every existing binding
and appends exactly the one new `score` binding.  (The unamended claim fails
because `predict` rewrites a non-empty key wholesale and `score` overwrites
an existing `score` binding.) -/
theorem C4_execution_key_growth :
    (∀ (sub : Submission) (j : Nat) (s : Submission) (evs : List Event),
        sub.executionKey = [] → predict sub j = Except.ok (s, evs) →
        s.executionKey = [("predict", j)]) ∧
    (∀ (sub : Submission) (j : Nat) (ok : Bool) (s : Submission) (evs : List Event),
        hasKey sub.executionKey "score" = false → score sub j ok = Except.ok (s, evs) →
        s.executionKey = sub.executionKey ++ [("score", j)]) := by
  constructor
  · intro sub j s evs hk h
    simp only [predict] at h
    split at h
    · simp only [Except.ok.injEq, Prod.mk.injEq] at h
      obtain ⟨hs, -⟩ := h
      rw [← hs]
    · exact Except.noConfusion h
  · intro sub j ok s evs hk h
    have hl : sub.executionKey.lookup "score" = none := by
      unfold hasKey at hk
      cases hll : sub.executionKey.lookup "score" with
      | none => rfl
      | some v =>
        rw [hll] at hk
        exact Bool.noConfusion hk
    simp only [score] at h
    repeat' split at h
    all_goals
      first
        | exact Except.noConfusion h
        | (simp only [Except.ok.injEq, Prod.mk.injEq] at h
           obtain ⟨hs, -⟩ := h
           rw [← hs]
           exact dictInsert_lookup_none _ _ _ hl)

/-- Witness for the amended C4: `predict` from the empty key with job id 7
yields exactly the one-binding key. -/
theorem C4_execution_key_growth_witness :
    subC4w.executionKey = [] ∧ subC4wAfter.executionKey = [("predict", 7)] :=
  ⟨rfl, C4_execution_key_growth.1 subC4w 7 subC4wAfter [Event.dispatched 7 true] rfl rfl⟩

/-- Claim C5 counterexample: a present `scores.txt` whose single line
`accuracy: oops` has a matched label but a value `float` rejects ends the
task with the submission FAILED, not FINISHED — the unparseable line is
fatal, not a warning-level skip. -/
theorem C5_counterexample_unparseable_value :
    (updateSubmissionTask jobEx subEx argsFinished subEx.secret oC5).1.status =
      SubStatus.failed ∧
    (updateSubmissionTask jobEx subEx argsFinished subEx.secret oC5).1.status ≠
      SubStatus.finished := by decide

/-- Claim C5 as amended: only a line whose stripped label matches no scoring
definition is non-fatal (a warning-level skip producing no row); a missing
`scores.txt` moves the submission to FAILED directly, and a line the loop
cannot parse (not exactly one colon, or a non-float value) raises an
uncaught exception so that the outer handler moves the submission to
FAILED. -/
theorem C5_unparseable_line_is_fatal (job : JobRec) (sub : Submission) (args : CallbackArgs)
    (o : Oracles)
    (htt : job.taskType = "evaluate_submission")
    (hst : args.status = "finished")
    (hkey : hasKey sub.executionKey "score" = true)
    (hnf : isFinal sub.status = false) :
    (o.scoresTxt = none →
      (updateSubmissionTask job sub args sub.secret o).1.status = SubStatus.failed) ∧
    (∀ (content : PyStr) (m : String), o.scoresTxt = some content →
      (processScores sub.scoreDefKeys content).2 = some m →
      (updateSubmissionTask job sub args sub.secret o).1.status = SubStatus.failed) ∧
    (∀ (defs : List PyStr) (line l v : PyStr),
      splitOnChar ':' line = [l, v] → defs.contains (pyStrip l) = false →
      processLine defs line = Except.ok (LineOutcome.warnSkip l)) := by
  refine ⟨?_, ?_, ?_⟩
  · intro hc
    rw [updateTask_ok_of_inner job sub args o _ _ htt
        (inner_finished_missing sub args job.id o hst hkey hc)]
    show setSubmissionStatus sub.status SubStatus.failed = SubStatus.failed
    simp [setSubmissionStatus, hnf]
  · intro content m hc hp
    rw [updateTask_error_of_inner job sub args o m _ htt
        (inner_finished_parse_error sub args job.id o content m hst hkey hc hp)]
    show setSubmissionStatus sub.status SubStatus.failed = SubStatus.failed
    simp [setSubmissionStatus, hnf]
  · intro defs line l v hsp hd
    unfold processLine
    rw [hsp]
    show (if defs.contains (pyStrip l) = true then _ else _) = _
    rw [if_neg (by intro hcc; rw [hd] at hcc; exact Bool.noConfusion hcc)]

/-- Witness for the amended C5: the concrete `accuracy: oops` content makes
the scores loop raise, and the task ends FAILED. -/
theorem C5_unparseable_line_is_fatal_witness :
    (processScores subEx.scoreDefKeys ("accuracy: oops".toList)).2 =
      some "ValueError: could not convert string to float" ∧
    (updateSubmissionTask jobEx subEx argsFinished subEx.secret oC5).1.status =
      SubStatus.failed :=
  ⟨by decide,
   (C5_unparseable_line_is_fatal jobEx subEx argsFinished oC5 rfl rfl (by decide)
      (by decide)).2.1 ("accuracy: oops".toList)
      "ValueError: could not convert string to float" rfl (by decide)⟩

/-- Claim C6: a `finished` score-phase callback whose `scores.txt` has only
well-formed non-empty `label: value` lines processes without an exception;
the outcomes correspond one-to-one, in order, to the non-empty lines —
exactly one row holding the parsed float per matched label, a warning-level
skip and no row per unmatched label; the created rows are appended to the
submission's scores; and the submission ends FINISHED (whatever the
promotion/email oracles do). -/
theorem C6_wellformed_scores_processing (job : JobRec) (sub : Submission)
    (args : CallbackArgs) (o : Oracles) (content : PyStr)
    (htt : job.taskType = "evaluate_submission")
    (hst : args.status = "finished")
    (hkey : hasKey sub.executionKey "score" = true)
    (hc : o.scoresTxt = some content)
    (hwf : wellFormedContent content = true)
    (hnf : isFinal sub.status = false) :
    (processScores sub.scoreDefKeys content).2 = none ∧
    List.Forall₂ (lineMatches sub.scoreDefKeys) (nonEmptyLines content)
      (processScores sub.scoreDefKeys content).1 ∧
    (updateSubmissionTask job sub args sub.secret o).1.scores =
      sub.scores ++ rowsOf (processScores sub.scoreDefKeys content).1 ∧
    (updateSubmissionTask job sub args sub.secret o).1.status = SubStatus.finished := by
  have hall : ∀ l ∈ splitOnChar '\n' content, l.length = 0 ∨ wellFormedLine l = true := by
    intro l hl
    have h1 := List.all_eq_true.mp hwf l hl
    simpa using h1
  obtain ⟨hp2, hfa⟩ :=
    processScoresAux_wellFormed sub.scoreDefKeys (splitOnChar '\n' content) hall
  have hfinal := updateTask_finished_score_state job sub args o content htt hst hkey hc hp2
  refine ⟨hp2, hfa, ?_, ?_⟩
  · rcases hfinal with hF | hF <;> rw [hF] <;> rfl
  · rcases hfinal with hF | hF <;> rw [hF]
    · show setSubmissionStatus sub.status SubStatus.finished = SubStatus.finished
      simp [setSubmissionStatus, hnf]
    · show setSubmissionStatus (setSubmissionStatus sub.status SubStatus.finished)
          SubStatus.failed = SubStatus.finished
      have h1 : setSubmissionStatus sub.status SubStatus.finished = SubStatus.finished := by
        simp [setSubmissionStatus, hnf]
      rw [h1]
      decide

/-- Witness for C6 at the spec's test vector `accuracy: 0.87\nf1: 0.5`
against the single definition `accuracy`: well-formed, rows appended,
status FINISHED. -/
theorem C6_wellformed_scores_processing_witness :
    wellFormedContent contentC6 = true ∧
    (updateSubmissionTask jobEx subEx argsFinished subEx.secret oC6).1.scores =
      subEx.scores ++ rowsOf (processScores subEx.scoreDefKeys contentC6).1 ∧
    (updateSubmissionTask jobEx subEx argsFinished subEx.secret oC6).1.status =
      SubStatus.finished :=
  ⟨by decide,
   (C6_wellformed_scores_processing jobEx subEx argsFinished oC6 contentC6 rfl rfl
      (by decide) rfl (by decide) (by decide)).2.2.1,
   (C6_wellformed_scores_processing jobEx subEx argsFinished oC6 contentC6 rfl rfl
      (by decide) rfl (by decide) (by decide)).2.2.2⟩

/-- Claim C7: composing the predict run manifest with an empty program
reference, the scoring input manifest with an empty `res` reference, or the
scoring run manifest with an empty scoring-program reference raises the
missing-precondition `ValueError` with the submission unchanged and no
dispatch event emitted. -/
theorem C7_manifest_preconditions :
    (∀ (sub : Submission) (j : Nat), sub.fileName.length = 0 →
        predict sub j = Except.error ("Program is missing.", sub, [])) ∧
    (∀ (sub : Submission) (j : Nat) (ok : Bool),
        (if hasKey sub.executionKey "predict" = true then sub.predictionOutputName
         else sub.fileName).length = 0 →
        score sub j ok = Except.error ("Results are missing.", sub, [])) ∧
    (∀ (sub : Submission) (j : Nat) (ok : Bool),
        0 < (if hasKey sub.executionKey "predict" = true then sub.predictionOutputName
             else sub.fileName).length →
        sub.scoringProgramName.length = 0 →
        score sub j ok = Except.error ("Program is missing.", sub, [])) := by
  refine ⟨?_, ?_, ?_⟩
  · intro sub j h
    simp only [predict]
    rw [if_neg (by omega)]
  · intro sub j ok h
    simp only [score]
    rw [if_neg (by omega)]
  · intro sub j ok h1 h2
    simp only [score]
    rw [if_pos h1, if_neg (by omega)]

/-- Witness for C7 at concrete submissions: empty uploaded bundle for
`predict`, empty `res` for a direct scoring run, empty scoring program. -/
theorem C7_manifest_preconditions_witness :
    predict subC7a 3 = Except.error ("Program is missing.", subC7a, []) ∧
    score subC7b 3 true = Except.error ("Results are missing.", subC7b, []) ∧
    score subC7c 3 true = Except.error ("Program is missing.", subC7c, []) :=
  ⟨C7_manifest_preconditions.1 subC7a 3 rfl,
   C7_manifest_preconditions.2.1 subC7b 3 true (by decide),
   C7_manifest_preconditions.2.2 subC7c 3 true (by decide) rfl⟩

/-- Claim C8: the soft execution-time budget passed to `apply_async` equals
the phase's configured limit when that is positive, and 600 seconds when the
limit is zero, negative, or unset (`None`, which Python 2 compares below 0). -/
theorem C8_soft_time_limit (jobId : Nat) (sub : Submission) (isPrediction : Bool) :
    (∀ v : Int, sub.executionTimeLimit = some v → 0 < v →
        (prepareComputeWorkerRun jobId sub isPrediction).2 = v) ∧
    (∀ v : Int, sub.executionTimeLimit = some v → v ≤ 0 →
        (prepareComputeWorkerRun jobId sub isPrediction).2 = 600) ∧
    (sub.executionTimeLimit = none →
        (prepareComputeWorkerRun jobId sub isPrediction).2 = 600) := by
  refine ⟨?_, ?_, ?_⟩
  · intro v hv hpos
    simp only [prepareComputeWorkerRun, hv, pyLeZero]
    rw [if_neg (by simp only [decide_eq_true_iff]; omega)]
    rfl
  · intro v hv hle
    simp only [prepareComputeWorkerRun, hv, pyLeZero]
    rw [if_pos (by simp only [decide_eq_true_iff]; omega)]
    norm_num
  · intro hv
    simp only [prepareComputeWorkerRun, hv, pyLeZero]
    norm_num

/-- Witness for C8: limits 300, 0 and `None` resolve to budgets 300, 600
and 600. -/
theorem C8_soft_time_limit_witness :
    (prepareComputeWorkerRun 1 subEx true).2 = 300 ∧
    (prepareComputeWorkerRun 1 subC8z true).2 = 600 ∧
    (prepareComputeWorkerRun 1 subC8n true).2 = 600 :=
  ⟨(C8_soft_time_limit 1 subEx true).1 300 rfl (by decide),
   (C8_soft_time_limit 1 subC8z true).2.1 0 rfl (by decide),
   (C8_soft_time_limit 1 subC8n true).2.2 rfl⟩

/-- Claim C9: a `finished` callback for a submission whose execution key has
no `score` entry attempts the score dispatch; when that dispatch raises, the
exception is swallowed at this layer (the task still returns normally) and
the stored status is exactly what it was — this path never sets FAILED. -/
theorem C9_predict_finished_swallows (job : JobRec) (sub : Submission)
    (args : CallbackArgs) (o : Oracles)
    (htt : job.taskType = "evaluate_submission")
    (hst : args.status = "finished")
    (hkey : hasKey sub.executionKey "score" = false)
    (herr : (score sub job.id o.scoreDispatchOk).toOption = none) :
    (updateSubmissionTask job sub args sub.secret o).1.status = sub.status := by
  cases hsc : score sub job.id o.scoreDispatchOk with
  | ok r =>
    rw [hsc] at herr
    exact Option.noConfusion herr
  | error e =>
    obtain ⟨m, s, evs⟩ := e
    rw [updateTask_ok_of_inner job sub args o s (some JobStatus.failed) htt
        (inner_finished_predict_error sub args job.id o m s evs hst hkey hsc)]
    exact score_error_preserves_status sub job.id o.scoreDispatchOk m s evs hsc

/-- Witness for C9: queue publish failing on the score dispatch after a
finished predict phase leaves the submission RUNNING. -/
theorem C9_predict_finished_swallows_witness :
    hasKey subC9.executionKey "score" = false ∧
    (updateSubmissionTask jobEx subC9 argsFinished subC9.secret oC9).1.status = subC9.status :=
  ⟨by decide,
   C9_predict_finished_swallows jobEx subC9 argsFinished oC9 rfl rfl (by decide) (by decide)⟩

/-- Claim C10: in the finished-score branch with a completing scores loop,
the FINISHED transition happens before the leaderboard and email code, so
whatever exception those raise is routed through the outer handler, whose
FAILED transition is absorbed by the terminal latch: the submission ends
FINISHED for every promotion/email oracle. -/
theorem C10_finished_latched_before_promotion (job : JobRec) (sub : Submission)
    (args : CallbackArgs) (o : Oracles) (content : PyStr)
    (htt : job.taskType = "evaluate_submission")
    (hst : args.status = "finished")
    (hkey : hasKey sub.executionKey "score" = true)
    (hc : o.scoresTxt = some content)
    (hparse : (processScores sub.scoreDefKeys content).2 = none)
    (hnf : isFinal sub.status = false) :
    (updateSubmissionTask job sub args sub.secret o).1.status = SubStatus.finished := by
  rcases updateTask_finished_score_state job sub args o content htt hst hkey hc hparse
    with hF | hF <;> rw [hF]
  · show setSubmissionStatus sub.status SubStatus.finished = SubStatus.finished
    simp [setSubmissionStatus, hnf]
  · show setSubmissionStatus (setSubmissionStatus sub.status SubStatus.finished)
        SubStatus.failed = SubStatus.finished
    have h1 : setSubmissionStatus sub.status SubStatus.finished = SubStatus.finished := by
      simp [setSubmissionStatus, hnf]
    rw [h1]
    decide

/-- Witness for C10: with a leaderboard block that raises, the concrete
finished-score callback still ends FINISHED. -/
theorem C10_finished_latched_before_promotion_witness :
    oC10.promotionOk = false ∧
    (updateSubmissionTask jobEx subEx argsFinished subEx.secret oC10).1.status =
      SubStatus.finished :=
  ⟨rfl,
   C10_finished_latched_before_promotion jobEx subEx argsFinished oC10
     ("accuracy: 0.87".toList) rfl rfl (by decide) rfl (by decide) (by decide)⟩

end Codalab
